import Mathlib

/-!
Verification of the jira-tasks CLI (src/jira.py) against its specification.

The development shallowly embeds the Python program:
pure string manipulation becomes Lean functions on strings and lists,
Python exceptions become an explicit error type carried in Except,
the file system and the process environment become explicit Option-valued
parameters (none models an absent file or an unset variable), and the
HTTP layer becomes an oracle parameter mapping a request to a response.
-/

set_option autoImplicit false

namespace Jira

/-- Python exceptions that the program can raise, as an explicit error type. -/
inductive PyError where
  /-- UnboundLocalError: a local variable referenced before assignment. -/
  | unboundLocal : String → PyError
  /-- TypeError, e.g. str.replace called with None, or int plus str. -/
  | typeError : String → PyError
  /-- ValueError from unpacking str.split into two names; this is the
  failure the spec calls MalformedLineError. -/
  | valueError : String → PyError
  /-- AttributeError, e.g. calling a method on None. -/
  | attributeError : String → PyError
deriving DecidableEq

/-- Characters of a string split on a separator character, Python
str.split semantics: n separators yield n + 1 (possibly empty) parts. -/
def splitChar (sep : Char) : List Char → List (List Char)
  | [] => [[]]
  | c :: rest =>
    let r := splitChar sep rest
    if c == sep then [] :: r
    else
      match r with
      | [] => [[c]]
      | h :: t => (c :: h) :: t

/-- Python s.split(sep) for a one-character separator. -/
def pySplit (sep : Char) (s : String) : List String :=
  (splitChar sep s.data).map (fun cs => String.mk cs)

/-- Python s.lower() (ASCII case folding, which is all the program uses). -/
def pyLower (s : String) : String :=
  String.mk (s.data.map Char.toLower)

/-- Python sep.join(xs). -/
def pyJoin (sep : String) : List String → String
  | [] => ""
  | [x] => x
  | x :: y :: rest => x ++ sep ++ pyJoin sep (y :: rest)

/-- Python orig_file_name.replace(tilde, HOME) where HOME is
os.environ.get("HOME"): when HOME is unset the second argument is None and
str.replace raises TypeError before touching the file system. -/
def pyReplaceTilde (home : Option String) (s : String) : Except PyError String :=
  match home with
  | none => Except.error (PyError.typeError "replace argument 2 must be str, not None")
  | some h => Except.ok (String.mk (s.data.foldr (fun c acc => if c = '~' then h.data ++ acc else c :: acc) []))

/-- Python dict lookup d[k] as an Option, over an insertion-ordered
association list. -/
def dictLookup : List (String × String) → String → Option String
  | [], _ => none
  | (k1, v) :: rest, k => if k = k1 then some v else dictLookup rest k

/-- Python dict assignment d[k] = v: overwrite the value in place when the
key is present, append otherwise (insertion order preserved). -/
def dictInsert : List (String × String) → String → String → List (String × String)
  | [], k, v => [(k, v)]
  | (k1, v1) :: rest, k, v =>
    if k = k1 then (k1, v) :: rest else (k1, v1) :: dictInsert rest k v

/-- The filter applied to file lines in both readers:
len(line) > 0 and line[0] != the comment mark. -/
def keepLine (l : String) : Bool :=
  match l.data with
  | [] => false
  | c :: _ => c != '#'

/-- File content split on newline and filtered, as both file readers do. -/
def survivingLines (content : String) : List String :=
  (pySplit '\n' content).filter keepLine

/-- The loop body of both statuses readers: key, value = line.split(colon)
then dict assignment; unpacking raises ValueError (the spec's
MalformedLineError) unless the split has exactly two parts. -/
def buildStatusesAux (acc : List (String × String)) : List String → Except PyError (List (String × String))
  | [] => Except.ok acc
  | l :: rest =>
    match pySplit ':' l with
    | [k, v] => buildStatusesAux (dictInsert acc k v) rest
    | _ => Except.error (PyError.valueError l)

def STATUSES_FILE_NAME : String := "./.statuses"

def PROJECTS_FILE_NAME : String := "./.projects"

/-- read_statuses_from_file. The file system is modelled by fileContent:
none when no file exists at the tilde-substituted path, some content
otherwise. When the file is absent the source executes return statuses
with the local statuses not yet assigned, an UnboundLocalError. -/
def read_statuses_from_file (home : Option String) (fileContent : Option String) (orig_file_name : String) : Except PyError (List (String × String)) := do
  let _file_name ← pyReplaceTilde home orig_file_name
  match fileContent with
  | none => Except.error (PyError.unboundLocal "statuses")
  | some content => buildStatusesAux [] (survivingLines content)

/-- read_statuses_from_env. envVal is os.getenv of the variable: none when
unset; the empty string is falsy in Python, so both yield the empty dict. -/
def read_statuses_from_env (envVal : Option String) : Except PyError (List (String × String)) :=
  match envVal with
  | none => Except.ok []
  | some s => if s = "" then Except.ok [] else buildStatusesAux [] (pySplit ',' s)

/-- read_projects_from_file, with the same file-system modelling and the
same unbound-local slip (return projects) on an absent file. -/
def read_projects_from_file (home : Option String) (fileContent : Option String) (orig_file_name : String) : Except PyError (List String) := do
  let _file_name ← pyReplaceTilde home orig_file_name
  match fileContent with
  | none => Except.error (PyError.unboundLocal "projects")
  | some content => Except.ok (survivingLines content)

/-- read_projects_from_env: split the variable on commas, verbatim. -/
def read_projects_from_env (envVal : Option String) : Except PyError (List String) :=
  match envVal with
  | none => Except.ok []
  | some s => if s = "" then Except.ok [] else Except.ok (pySplit ',' s)

/-- STATUSES resolution: the inline default is the empty (falsy) dict, so
the Python or-chain always evaluates the file source, and evaluates the
env source only when the file source was empty. -/
def resolve_statuses (home : Option String) (fileContent : Option String) (envVal : Option String) : Except PyError (List (String × String)) := do
  let fromFile ← read_statuses_from_file home fileContent STATUSES_FILE_NAME
  if fromFile.isEmpty then read_statuses_from_env envVal else pure fromFile

/-- PROJECTS resolution, same or-chain with the empty list as inline default. -/
def resolve_projects (home : Option String) (fileContent : Option String) (envVal : Option String) : Except PyError (List String) := do
  let fromFile ← read_projects_from_file home fileContent PROJECTS_FILE_NAME
  if fromFile.isEmpty then read_projects_from_env envVal else pure fromFile

/-- The quoting comprehension applied to the resolved project list:
double quotes around project names. -/
def quoteProjects (ps : List String) : List String :=
  ps.map (fun p => "\"" ++ p ++ "\"")

def BASE_API_URL : String := "https://inveocz.atlassian.net/rest/api/3/"

def BROWSE_BASE_URL : String := "https://inveocz.atlassian.net/browse/"

def HEADERS : List (String × String) := [("Accept", "application/json")]

/-- PRIORITY: the static priority map; note the keys are Python ints. -/
def PRIORITY : List (Nat × String) :=
  [(1, "Highest"), (2, "High"), (3, "Medium"), (4, "Low"), (5, "Lowest")]

/-- HTTPBasicAuth(JIRA_USER, JIRA_API_KEY). -/
structure BasicAuth where
  user : String
  key : Option String
deriving DecidableEq

/-- One parsed issue record from the response JSON:
key, fields.priority.id, fields.summary. -/
structure Issue where
  key : String
  priorityId : String
  summary : String
deriving DecidableEq

/-- The parsed JSON body of a search response: total and issues. -/
structure SearchResult where
  total : Nat
  issues : List Issue
deriving DecidableEq

/-- The single HTTP request that get_test_tickets issues. -/
structure Request where
  method : String
  url : String
  headers : List (String × String)
  jql : String
  auth : BasicAuth
deriving DecidableEq

/-- The request built by get_test_tickets(env): GET BASE_API_URL plus
search, with the jql clause formatted from the joined projects and the
status value, the fixed headers and the basic auth. -/
def get_test_tickets_request (projects : List String) (auth : BasicAuth) (env : String) : Request :=
  ⟨"GET", BASE_API_URL ++ "search", HEADERS,
    "project in (" ++ pyJoin "," projects ++ ") AND status in (\"" ++ env ++ "\")", auth⟩

/-- get_test_tickets: issue the one request through the transport oracle
doRequest (status code and parsed body); return the parsed body on 200 and
None on any other status code. -/
def get_test_tickets (projects : List String) (auth : BasicAuth) (doRequest : Request → Nat × SearchResult) (env : String) : Option SearchResult :=
  let resp := doRequest (get_test_tickets_request projects auth env)
  if resp.1 = 200 then some resp.2 else none

/-- issues_pretty_print, modelled as the list of printed lines. -/
def issues_pretty_print (result_json : Option SearchResult) : List String :=
  match result_json with
  | none => ["! Number of issues: 0"]
  | some j =>
    ("Number of issues: " ++ toString j.total)
      :: j.issues.map (fun i => i.key ++ " : " ++ (BROWSE_BASE_URL ++ i.key) ++ " : " ++ i.priorityId ++ " : " ++ i.summary)

/-- Python int + str raises TypeError; used by the priority-help loop,
whose keys are ints. -/
def pyAddIntStr (_k : Nat) (_rest : String) : Except PyError String :=
  Except.error (PyError.typeError "unsupported operand types for add: int and str")

/-- Sequential effectful map over Except, modelling a print loop that can
raise on an element and produce nothing further. -/
def mapExcept {a b e : Type} (f : a → Except e b) : List a → Except e (List b)
  | [] => Except.ok []
  | x :: xs => do
    let y ← f x
    let ys ← mapExcept f xs
    pure (y :: ys)

/-- List concatenation map (used to collect the lines of the query loops). -/
def listFlatMap {a b : Type} (f : a → List b) : List a → List b
  | [] => []
  | x :: xs => f x ++ listFlatMap f xs

/-- The status values main queries, in order: first the all-branch
(every dict value when the lowered argument is the all keyword), then the
comma-split loop, which always runs and looks each lowered token up in the
dict, skipping tokens that are not keys. -/
def queriedStatuses (statuses : List (String × String)) (arg : String) : List String :=
  (if pyLower arg = "all" then statuses.map Prod.snd else [])
    ++ (pySplit ',' arg).filterMap (fun e => dictLookup statuses (pyLower e))

/-- The argparse result: two store-true flags and the optional status. -/
structure Args where
  statushelp : Bool
  priorityhelp : Bool
  status : Option String
deriving DecidableEq

/-- main(args), modelled as the list of printed lines or the exception it
raises. fetch is get_test_tickets with transport and globals applied. -/
def mainOutput (statuses : List (String × String)) (projects : List String) (fetch : String → Option SearchResult) (args : Args) : Except PyError (List String) :=
  if args.statushelp then
    Except.ok (statuses.map (fun kv => kv.1 ++ ":" ++ kv.2))
  else if args.priorityhelp then
    mapExcept (fun kv => pyAddIntStr kv.1 (":" ++ kv.2)) PRIORITY
  else
    match args.status with
    | none => Except.error (PyError.attributeError "NoneType object has no attribute lower")
    | some arg =>
      Except.ok ((pyJoin "," projects ++ "\n")
        :: listFlatMap (fun v => (v ++ ":") :: issues_pretty_print (fetch v)) (queriedStatuses statuses arg))

/-- Python truthiness of an optional string: None and the empty string are
falsy. -/
def pyTruthyOpt (v : Option String) : Bool :=
  match v with
  | none => false
  | some s => s != ""

/-- requirements(): the fail-fast checks, in source order, each exiting
with code 1. BASE_API_URL, HEADERS and BROWSE_BASE_URL are non-empty
constants and the AUTH object is always truthy in Python, so those checks
are modelled on the constants themselves. -/
def requirementsExit (apiKey : Option String) (user : String) (statuses : List (String × String)) (projects : List String) : Option Nat :=
  if !pyTruthyOpt apiKey then some 1
  else if user = "" then some 1
  else if BASE_API_URL = "" then some 1
  else if HEADERS = [] then some 1
  else if BROWSE_BASE_URL = "" then some 1
  else if statuses = [] then some 1
  else if projects = [] then some 1
  else none

/-- The __main__ block: requirements() runs first; then, when argv has only
the program name, print help and exit 0; otherwise run main on the parsed
arguments and exit 0, an uncaught exception giving exit status 1. -/
def runProgram (apiKey : Option String) (user : String) (statuses : List (String × String)) (projects : List String) (fetch : String → Option SearchResult) (argv : List String) (args : Args) : Nat :=
  match requirementsExit apiKey user statuses projects with
  | some c => c
  | none =>
    if argv.length = 1 then 0
    else
      match mainOutput statuses projects fetch args with
      | Except.ok _ => 0
      | Except.error _ => 1

end Jira
namespace Jira

/-- Looking up the key just inserted returns the inserted value. -/
lemma dictLookup_insert_self (d : List (String × String)) (k v : String) :
    dictLookup (dictInsert d k v) k = some v := by
  induction d with
  | nil => simp [dictInsert, dictLookup]
  | cons p rest ih =>
    obtain ⟨k1, v1⟩ := p
    by_cases h : k = k1
    · simp [dictInsert, dictLookup, h]
    · simp [dictInsert, dictLookup, h, ih]

/-- Insertion does not change the binding of a different key. -/
lemma dictLookup_insert_ne (d : List (String × String)) (k v k1 : String) (h : k1 ≠ k) :
    dictLookup (dictInsert d k v) k1 = dictLookup d k1 := by
  induction d with
  | nil => simp [dictInsert, dictLookup, h]
  | cons p rest ih =>
    obtain ⟨k2, v2⟩ := p
    by_cases h2 : k = k2
    · subst h2
      simp [dictInsert, dictLookup, h]
    · simp only [dictInsert, dictLookup, if_neg h2]
      by_cases h3 : k1 = k2
      · simp [dictLookup, h3]
      · simp [dictLookup, h3, ih]

/-- Insertion preserves presence of any key. -/
lemma dictLookup_insert_isSome (d : List (String × String)) (k v k1 : String)
    (h : (dictLookup d k1).isSome) :
    (dictLookup (dictInsert d k v) k1).isSome := by
  by_cases hk : k1 = k
  · subst hk
    simp [dictLookup_insert_self]
  · rw [dictLookup_insert_ne d k v k1 hk]
    exact h

/-- When every line splits into exactly two parts, the build loop succeeds,
every line key is present in the result, and every binding of the result
comes from the accumulator or from some line. -/
lemma buildStatusesAux_ok (ls : List String) :
    ∀ acc : List (String × String), (∀ l ∈ ls, (pySplit ':' l).length = 2) →
    ∃ d, buildStatusesAux acc ls = Except.ok d ∧
      (∀ k, (dictLookup acc k).isSome → (dictLookup d k).isSome) ∧
      (∀ l ∈ ls, ∀ k v, pySplit ':' l = [k, v] → (dictLookup d k).isSome) ∧
      (∀ k v, dictLookup d k = some v → dictLookup acc k = some v ∨ ∃ l ∈ ls, pySplit ':' l = [k, v]) := by
  induction ls with
  | nil =>
    intro acc _
    exact ⟨acc, rfl, fun _ h => h, by simp, fun _ _ h => Or.inl h⟩
  | cons l rest ih =>
    intro acc h
    have hl : (pySplit ':' l).length = 2 := h l (List.mem_cons_self l rest)
    obtain ⟨k0, v0, hsl⟩ := List.length_eq_two.mp hl
    have hstep : buildStatusesAux acc (l :: rest) = buildStatusesAux (dictInsert acc k0 v0) rest := by
      simp [buildStatusesAux, hsl]
    obtain ⟨d, hd, hmono, hkeys, hprov⟩ :=
      ih (dictInsert acc k0 v0) (fun l2 h2 => h l2 (List.mem_cons_of_mem _ h2))
    refine ⟨d, by rw [hstep]; exact hd, ?_, ?_, ?_⟩
    · intro k hk
      exact hmono k (dictLookup_insert_isSome acc k0 v0 k hk)
    · intro l2 h2 k v hkv
      rcases List.mem_cons.mp h2 with h2 | h2
      · subst h2
        rw [hsl] at hkv
        injection hkv with hk1 hrest
        subst hk1
        exact hmono k0 (by simp [dictLookup_insert_self])
      · exact hkeys l2 h2 k v hkv
    · intro k v hkv
      rcases hprov k v hkv with hacc | ⟨l2, h2, hkv2⟩
      · by_cases hk : k = k0
        · subst hk
          rw [dictLookup_insert_self] at hacc
          injection hacc with hv
          exact Or.inr ⟨l, List.mem_cons_self l rest, by rw [hsl, hv]⟩
        · rw [dictLookup_insert_ne acc k0 v0 k hk] at hacc
          exact Or.inl hacc
      · exact Or.inr ⟨l2, List.mem_cons_of_mem _ h2, hkv2⟩

/-- When some line does not split into exactly two parts, the build loop
fails with the ValueError of such a line. -/
lemma buildStatusesAux_err (ls : List String) :
    ∀ acc : List (String × String), (∃ l ∈ ls, (pySplit ':' l).length ≠ 2) →
    ∃ l ∈ ls, (pySplit ':' l).length ≠ 2 ∧ buildStatusesAux acc ls = Except.error (PyError.valueError l) := by
  induction ls with
  | nil =>
    intro acc h
    simp at h
  | cons l rest ih =>
    intro acc h
    by_cases hl : (pySplit ':' l).length = 2
    · obtain ⟨k0, v0, hsl⟩ := List.length_eq_two.mp hl
      have hstep : buildStatusesAux acc (l :: rest) = buildStatusesAux (dictInsert acc k0 v0) rest := by
        simp [buildStatusesAux, hsl]
      have hrest : ∃ l2 ∈ rest, (pySplit ':' l2).length ≠ 2 := by
        rcases h with ⟨l2, h2, hb⟩
        rcases List.mem_cons.mp h2 with h2 | h2
        · subst h2
          exact absurd hl hb
        · exact ⟨l2, h2, hb⟩
      obtain ⟨l2, h2, hb, he⟩ := ih (dictInsert acc k0 v0) hrest
      exact ⟨l2, List.mem_cons_of_mem _ h2, hb, by rw [hstep]; exact he⟩
    · refine ⟨l, List.mem_cons_self l rest, hl, ?_⟩
      rcases e : pySplit ':' l with _ | ⟨a, _ | ⟨b, _ | ⟨c, t⟩⟩⟩
      · simp [buildStatusesAux, e]
      · simp [buildStatusesAux, e]
      · exact absurd (by rw [e]; rfl) hl
      · simp [buildStatusesAux, e]

/-- The two halves of the malformed-line contract for one line list. -/
lemma buildStatuses_spec (ls : List String) :
    ((∀ l ∈ ls, (pySplit ':' l).length = 2) →
      ∃ d, buildStatusesAux [] ls = Except.ok d ∧
        (∀ l ∈ ls, ∀ k v, pySplit ':' l = [k, v] → (dictLookup d k).isSome) ∧
        (∀ k v, dictLookup d k = some v → ∃ l ∈ ls, pySplit ':' l = [k, v]))
    ∧ ((∃ l ∈ ls, (pySplit ':' l).length ≠ 2) →
      ∃ l ∈ ls, (pySplit ':' l).length ≠ 2 ∧ buildStatusesAux [] ls = Except.error (PyError.valueError l)) := by
  constructor
  · intro h
    obtain ⟨d, hd, _, hkeys, hprov⟩ := buildStatusesAux_ok ls [] h
    refine ⟨d, hd, hkeys, ?_⟩
    intro k v hkv
    rcases hprov k v hkv with hacc | h2
    · simp [dictLookup] at hacc
    · exact h2
  · exact buildStatusesAux_err ls []

/-- A string whose lower-casing is the all keyword contains no comma, so
the comma split returns it whole. -/
lemma pySplit_comma_of_lower_all (arg : String) (h : pyLower arg = "all") :
    pySplit ',' arg = [arg] := by
  obtain ⟨data⟩ := arg
  have hd : data.map Char.toLower = ['a', 'l', 'l'] := by
    have h2 := congrArg String.data h
    simpa [pyLower] using h2
  rcases data with _ | ⟨c1, _ | ⟨c2, _ | ⟨c3, _ | ⟨c4, t⟩⟩⟩⟩ <;> simp only [List.map] at hd
  · exact absurd hd (by simp)
  · exact absurd hd (by simp)
  · exact absurd hd (by simp)
  · obtain ⟨h1, h2, h3⟩ : c1.toLower = 'a' ∧ c2.toLower = 'l' ∧ c3.toLower = 'l' := by
      simpa using hd
    have n1 : c1 ≠ ',' := by
      intro hc
      rw [hc] at h1
      exact absurd h1 (by decide)
    have n2 : c2 ≠ ',' := by
      intro hc
      rw [hc] at h2
      exact absurd h2 (by decide)
    have n3 : c3 ≠ ',' := by
      intro hc
      rw [hc] at h3
      exact absurd h3 (by decide)
    simp [pySplit, splitChar, n1, n2, n3]
  · exact absurd hd (by simp)

end Jira
namespace Jira

/-- Resolution after a successful file read reduces to the emptiness test
on the file result. -/
lemma resolve_statuses_of_file_ok (home c e : Option String) (d : List (String × String))
    (h : read_statuses_from_file home c STATUSES_FILE_NAME = Except.ok d) :
    resolve_statuses home c e = if d.isEmpty then read_statuses_from_env e else Except.ok d := by
  unfold resolve_statuses
  rw [h]
  rfl

/-- Resolution after a successful projects file read reduces likewise. -/
lemma resolve_projects_of_file_ok (home c e : Option String) (ps : List String)
    (h : read_projects_from_file home c PROJECTS_FILE_NAME = Except.ok ps) :
    resolve_projects home c e = if ps.isEmpty then read_projects_from_env e else Except.ok ps := by
  unfold resolve_projects
  rw [h]
  rfl

/-- C1: the claim says an absent statuses or projects file yields an empty
result and resolution falls through to the environment variable, so that
with JIRA_STATUSES set the env map is returned. The code instead executes
a bare return of a local that was never assigned, raising
UnboundLocalError, so with no statuses file resolution crashes before the
env source is consulted. -/
theorem resolve_statuses_absent_file_unbound_local :
    resolve_statuses (some "/home/user") none (some "open:Open,done:Done")
      = Except.error (PyError.unboundLocal "statuses")
    ∧ read_projects_from_file (some "/home/user") none PROJECTS_FILE_NAME
      = Except.error (PyError.unboundLocal "projects") :=
  ⟨rfl, rfl⟩

/-- C2 counterexample: with JIRA_API_KEY unset and zero command-line
arguments, the program exits with code 1, not 0, because requirements()
runs before the zero-argument help check. -/
theorem runProgram_noargs_missing_key_exits_one :
    runProgram none "pavel.saman@inveo.cz" [("open", "Open")] ["\"P1\""] (fun _ => none) ["./jira.py"] ⟨false, false, none⟩ = 1
    ∧ runProgram none "pavel.saman@inveo.cz" [("open", "Open")] ["\"P1\""] (fun _ => none) ["./jira.py"] ⟨false, false, none⟩ ≠ 0 :=
  ⟨rfl, by decide⟩

/-- C2 (amended): the missing-required-configuration check runs before
every state, the help-only state included. When it passes, zero arguments
print usage and exit 0; when it fails, the process exits with its code,
which is always 1. -/
theorem runProgram_requirements_gate (apiKey : Option String) (user : String)
    (statuses : List (String × String)) (projects : List String)
    (fetch : String → Option SearchResult) (argv : List String) (args : Args) :
    (requirementsExit apiKey user statuses projects = none → argv.length = 1 →
      runProgram apiKey user statuses projects fetch argv args = 0)
    ∧ (∀ c, requirementsExit apiKey user statuses projects = some c →
      runProgram apiKey user statuses projects fetch argv args = c)
    ∧ (∀ c, requirementsExit apiKey user statuses projects = some c → c = 1) := by
  refine ⟨?_, ?_, ?_⟩
  · intro h h1
    simp [runProgram, h, h1]
  · intro c h
    simp [runProgram, h]
  · intro c h
    unfold requirementsExit at h
    split_ifs at h <;> simp_all

/-- Witness for runProgram_requirements_gate. -/
theorem runProgram_requirements_gate_witness :
    runProgram (some "key") "u" [("open", "Open")] ["\"P1\""] (fun _ => none) ["./jira.py"] ⟨false, false, none⟩ = 0 :=
  (runProgram_requirements_gate (some "key") "u" [("open", "Open")] ["\"P1\""]
    (fun _ => none) ["./jira.py"] ⟨false, false, none⟩).1 rfl rfl

/-- C3: the claim says option priorityhelp prints each priority as id
colon value and exits 0. The PRIORITY keys are Python ints, so the print
loop raises TypeError on its first iteration instead of printing. -/
theorem mainOutput_priorityhelp_type_error :
    mainOutput [("open", "Open")] ["\"P1\""] (fun _ => none) ⟨false, true, none⟩
      = Except.error (PyError.typeError "unsupported operand types for add: int and str") :=
  rfl

/-- C4: for each statuses source, every surviving line with exactly one
colon separator contributes its key and value, and any surviving line
without exactly one colon makes resolving that source fail with the
unpacking error (the spec's MalformedLineError) instead of being skipped. -/
theorem statuses_line_exactly_one_colon (home content envVal : String) (henv : envVal ≠ "") :
    ((∀ l ∈ survivingLines content, (pySplit ':' l).length = 2) →
      ∃ d, read_statuses_from_file (some home) (some content) STATUSES_FILE_NAME = Except.ok d ∧
        (∀ l ∈ survivingLines content, ∀ k v, pySplit ':' l = [k, v] → (dictLookup d k).isSome) ∧
        (∀ k v, dictLookup d k = some v → ∃ l ∈ survivingLines content, pySplit ':' l = [k, v]))
    ∧ ((∃ l ∈ survivingLines content, (pySplit ':' l).length ≠ 2) →
      ∃ l ∈ survivingLines content, (pySplit ':' l).length ≠ 2 ∧
        read_statuses_from_file (some home) (some content) STATUSES_FILE_NAME = Except.error (PyError.valueError l))
    ∧ ((∀ l ∈ pySplit ',' envVal, (pySplit ':' l).length = 2) →
      ∃ d, read_statuses_from_env (some envVal) = Except.ok d ∧
        (∀ l ∈ pySplit ',' envVal, ∀ k v, pySplit ':' l = [k, v] → (dictLookup d k).isSome) ∧
        (∀ k v, dictLookup d k = some v → ∃ l ∈ pySplit ',' envVal, pySplit ':' l = [k, v]))
    ∧ ((∃ l ∈ pySplit ',' envVal, (pySplit ':' l).length ≠ 2) →
      ∃ l ∈ pySplit ',' envVal, (pySplit ':' l).length ≠ 2 ∧
        read_statuses_from_env (some envVal) = Except.error (PyError.valueError l)) := by
  have hfile : read_statuses_from_file (some home) (some content) STATUSES_FILE_NAME
      = buildStatusesAux [] (survivingLines content) := rfl
  have henvEq : read_statuses_from_env (some envVal) = buildStatusesAux [] (pySplit ',' envVal) := by
    simp [read_statuses_from_env, henv]
  obtain ⟨hA, hB⟩ := buildStatuses_spec (survivingLines content)
  obtain ⟨hC, hD⟩ := buildStatuses_spec (pySplit ',' envVal)
  rw [hfile, henvEq]
  exact ⟨hA, hB, hC, hD⟩

/-- Witness for statuses_line_exactly_one_colon. -/
theorem statuses_line_exactly_one_colon_witness :
    ∃ d, read_statuses_from_file (some "/h") (some "open:Open") STATUSES_FILE_NAME = Except.ok d ∧
      (∀ l ∈ survivingLines "open:Open", ∀ k v, pySplit ':' l = [k, v] → (dictLookup d k).isSome) ∧
      (∀ k v, dictLookup d k = some v → ∃ l ∈ survivingLines "open:Open", pySplit ':' l = [k, v]) :=
  (statuses_line_exactly_one_colon "/h" "open:Open" "a:b" (by decide)).1 (by decide)

/-- C5: resolution tries inline default, file, then env, short-circuiting
on the first non-empty result: a non-empty file result is final and the
environment source is never consulted, for statuses and for projects. -/
theorem resolution_file_shortcircuits_env (homeS homeP contentS contentP : Option String)
    (d : List (String × String)) (ps : List String) :
    (read_statuses_from_file homeS contentS STATUSES_FILE_NAME = Except.ok d → d ≠ [] →
      ∀ envVal, resolve_statuses homeS contentS envVal = Except.ok d)
    ∧ (read_projects_from_file homeP contentP PROJECTS_FILE_NAME = Except.ok ps → ps ≠ [] →
      ∀ envVal, resolve_projects homeP contentP envVal = Except.ok ps) := by
  constructor
  · intro h hne envVal
    rw [resolve_statuses_of_file_ok homeS contentS envVal d h]
    cases d with
    | nil => exact absurd rfl hne
    | cons x xs => rfl
  · intro h hne envVal
    rw [resolve_projects_of_file_ok homeP contentP envVal ps h]
    cases ps with
    | nil => exact absurd rfl hne
    | cons x xs => rfl

/-- Witness for resolution_file_shortcircuits_env. -/
theorem resolution_file_shortcircuits_env_witness :
    resolve_statuses (some "/h") (some "open:Open") (some "x:y") = Except.ok [("open", "Open")]
    ∧ resolve_projects (some "/h") (some "P1\nP2") (some "Q") = Except.ok ["P1", "P2"] :=
  ⟨(resolution_file_shortcircuits_env (some "/h") (some "/h") (some "open:Open") (some "P1\nP2")
      [("open", "Open")] ["P1", "P2"]).1 rfl (by decide) (some "x:y"),
   (resolution_file_shortcircuits_env (some "/h") (some "/h") (some "open:Open") (some "P1\nP2")
      [("open", "Open")] ["P1", "P2"]).2 rfl (by decide) (some "Q")⟩

/-- C6: outside the all branch, the driver splits the argument on commas
and queries exactly the values of the lower-cased tokens that are keys of
the status map; tokens whose lowered form is not a key contribute nothing
and raise no error. -/
theorem driver_token_lookup_case_insensitive (statuses : List (String × String)) (arg : String)
    (h : pyLower arg ≠ "all") :
    queriedStatuses statuses arg = (pySplit ',' arg).filterMap (fun t => dictLookup statuses (pyLower t))
    ∧ (∀ v, v ∈ queriedStatuses statuses arg ↔ ∃ t ∈ pySplit ',' arg, dictLookup statuses (pyLower t) = some v) := by
  have he : queriedStatuses statuses arg
      = (pySplit ',' arg).filterMap (fun t => dictLookup statuses (pyLower t)) := by
    simp [queriedStatuses, h]
  refine ⟨he, ?_⟩
  intro v
  rw [he]
  simp [List.mem_filterMap]

/-- Witness for driver_token_lookup_case_insensitive. -/
theorem driver_token_lookup_case_insensitive_witness :
    queriedStatuses [("open", "Open")] "Open,xx" = ["Open"] := by
  have h := (driver_token_lookup_case_insensitive [("open", "Open")] "Open,xx" (by decide)).1
  rw [h]
  decide

/-- C7: the query client returns the parsed body exactly when the status
code is 200 and the absence value on every other code, and the report
printer renders the absence value as the single bang-prefixed zero line. -/
theorem search_200_iff_json (projects : List String) (auth : BasicAuth)
    (doRequest : Request → Nat × SearchResult) (env : String) :
    ((doRequest (get_test_tickets_request projects auth env)).1 = 200 →
      get_test_tickets projects auth doRequest env = some (doRequest (get_test_tickets_request projects auth env)).2)
    ∧ ((doRequest (get_test_tickets_request projects auth env)).1 ≠ 200 →
      get_test_tickets projects auth doRequest env = none)
    ∧ issues_pretty_print none = ["! Number of issues: 0"] := by
  refine ⟨?_, ?_, rfl⟩
  · intro h
    simp [get_test_tickets, h]
  · intro h
    simp [get_test_tickets, h]

/-- Witness for search_200_iff_json. -/
theorem search_200_iff_json_witness :
    get_test_tickets ["\"P1\""] ⟨"u", some "k"⟩ (fun _ => (200, ⟨2, [⟨"A-1", "2", "x"⟩]⟩)) "Open"
      = some ⟨2, [⟨"A-1", "2", "x"⟩]⟩ :=
  (search_200_iff_json ["\"P1\""] ⟨"u", some "k"⟩ (fun _ => (200, ⟨2, [⟨"A-1", "2", "x"⟩]⟩)) "Open").1 rfl

/-- C8: for a resolved project list, the one GET request carries the jql
clause built from the comma-joined double-quoted projects and the quoted
status value, the fixed Accept header, the search URL and the basic auth;
the call consults the transport only at that single request. -/
theorem search_request_shape (ps : List String) (auth : BasicAuth) (s : String) :
    get_test_tickets_request (quoteProjects ps) auth s =
      ⟨"GET", "https://inveocz.atlassian.net/rest/api/3/search", [("Accept", "application/json")],
        "project in (" ++ pyJoin "," (ps.map (fun p => "\"" ++ p ++ "\"")) ++ ") AND status in (\"" ++ s ++ "\")", auth⟩
    ∧ ∀ dr dr2 : Request → Nat × SearchResult,
        dr (get_test_tickets_request (quoteProjects ps) auth s) = dr2 (get_test_tickets_request (quoteProjects ps) auth s) →
        get_test_tickets (quoteProjects ps) auth dr s = get_test_tickets (quoteProjects ps) auth dr2 s := by
  constructor
  · rfl
  · intro dr dr2 h
    simp [get_test_tickets, h]

/-- Witness for search_request_shape. -/
theorem search_request_shape_witness :
    get_test_tickets (quoteProjects ["P1"]) ⟨"u", some "k"⟩ (fun _ => (200, ⟨0, []⟩)) "Open"
      = get_test_tickets (quoteProjects ["P1"]) ⟨"u", some "k"⟩
          (fun r => if r.method = "GET" then (200, ⟨0, []⟩) else (404, ⟨0, []⟩)) "Open" :=
  (search_request_shape ["P1"] ⟨"u", some "k"⟩ "Open").2
    (fun _ => (200, ⟨0, []⟩))
    (fun r => if r.method = "GET" then (200, ⟨0, []⟩) else (404, ⟨0, []⟩))
    (by decide)

/-- C9: when the status argument lower-cases to the all keyword, the
driver queries every status map value and then still runs the comma-split
loop on the argument, so a map containing the key all has its value
queried a second time, while otherwise exactly one query per value is
made. -/
theorem status_all_queries_values_then_lookup (statuses : List (String × String)) (arg : String)
    (h : pyLower arg = "all") :
    (∀ v, dictLookup statuses "all" = some v →
      queriedStatuses statuses arg = statuses.map Prod.snd ++ [v])
    ∧ (dictLookup statuses "all" = none →
      queriedStatuses statuses arg = statuses.map Prod.snd) := by
  have hs := pySplit_comma_of_lower_all arg h
  constructor
  · intro v hv
    simp [queriedStatuses, h, hs, hv]
  · intro hv
    simp [queriedStatuses, h, hs, hv]

/-- Witness for status_all_queries_values_then_lookup. -/
theorem status_all_queries_values_then_lookup_witness :
    queriedStatuses [("open", "Open"), ("all", "Every")] "ALL" = ["Open", "Every", "Every"] := by
  have h := (status_all_queries_values_then_lookup [("open", "Open"), ("all", "Every")] "ALL"
    (by decide)).1 "Every" (by decide)
  simpa using h

/-- C10: with HOME unset, both file readers raise TypeError in the tilde
substitution, before the existence check or any file access, whatever the
file name and whatever the file contains. -/
theorem home_unset_type_error (fileContent : Option String) (name : String) :
    read_statuses_from_file none fileContent name
      = Except.error (PyError.typeError "replace argument 2 must be str, not None")
    ∧ read_projects_from_file none fileContent name
      = Except.error (PyError.typeError "replace argument 2 must be str, not None") :=
  ⟨rfl, rfl⟩

end Jira
